import Mathlib

/-!
Verification of the speech-rendering layer of the AVWX engine
(`avwx/speech.py`): the number speller, the per-field formatters
(wind, temperature, visibility, altimeter, weather phenomena) and the
METAR orchestrator.  External collaborators (`avwx.core`,
`avwx.translate`) and the static lookup tables (`avwx.static`) are
modelled as an environment of abstract functions, so every theorem
quantifies over all collaborator behaviours allowed by their contracts.
Python string operations (`lstrip`, `startswith`, `find`/slice,
`replace`, `split`, `strip`, `join`) are embedded as executable
functions on `List Char`.
-/

namespace Speech

/-- Python `sub in hay` substring test. -/
def isSubstr (needle hay : String) : Bool :=
  (List.range (hay.data.length + 1)).any (fun i => needle.data.isPrefixOf (hay.data.drop i))

/-- Python `s.startswith(pre)`. -/
def pyStartsWith (s pre : String) : Bool :=
  pre.data.isPrefixOf s.data

/-- Python `s.lstrip(chars)`: drops every leading character that occurs in
`chars` (a character set, not a literal word). -/
def pyLstrip (s : String) (chars : List Char) : String :=
  ⟨s.data.dropWhile (fun c => chars.contains c)⟩

/-- Python `s.lstrip('0')`. -/
def lstripZeros (s : String) : String :=
  ⟨s.data.dropWhile (fun c => c = '0')⟩

/-- Python `s[:n]` for `n ≥ 0`. -/
def strTake (s : String) (n : Nat) : String :=
  ⟨s.data.take n⟩

/-- Python `s[n:]` for `n ≥ 0`. -/
def strDrop (s : String) (n : Nat) : String :=
  ⟨s.data.drop n⟩

/-- Python `s.lower()` (ASCII fragment). -/
def strToLower (s : String) : String :=
  ⟨s.data.map Char.toLower⟩

/-- Python `s.strip()`: whitespace removed from both ends. -/
def pyStrip (s : String) : String :=
  ⟨((s.data.dropWhile Char.isWhitespace).reverse.dropWhile Char.isWhitespace).reverse⟩

/-- Python `sep.join(l)`. -/
def joinSep (sep : String) : List String → String
  | [] => ""
  | [s] => s
  | s :: rest => s ++ sep ++ joinSep sep rest

/-- Helper for Python `s.split(' ')`, working from the right. -/
def splitCharAux (c : Char) : List Char → List (List Char)
  | [] => [[]]
  | x :: xs =>
    if x = c then [] :: splitCharAux c xs
    else
      match splitCharAux c xs with
      | [] => [[x]]
      | h :: t => (x :: h) :: t

/-- Python `s.split(' ')` (single-character separator, keeps empty pieces). -/
def splitOnSpace (s : String) : List String :=
  (splitCharAux ' ' s.data).map (fun l => ⟨l⟩)

/-- Python `s.find(sub)` as an `Option`: index of the first occurrence. -/
def findSub (s sub : String) : Option Nat :=
  (List.range (s.data.length + 1)).find? (fun i => sub.data.isPrefixOf (s.data.drop i))

/-- Python `s[:s.find(' (')]`: cut at the first `" ("`; when there is no
occurrence `find` returns `-1`, so the slice drops the LAST character. -/
def cutAtParen (s : String) : String :=
  match findSub s " (" with
  | some i => strTake s i
  | none => strTake s (s.data.length - 1)

/-- Fuel-indexed scanner for Python `s.replace(sub, '')` with non-empty
`sub = a :: rest`; one character of fuel per consumed character. -/
def eraseSubFuel (a : Char) (rest : List Char) : Nat → List Char → List Char
  | 0, l => l
  | _ + 1, [] => []
  | n + 1, c :: cs =>
    if (a :: rest).isPrefixOf (c :: cs) then eraseSubFuel a rest n (cs.drop rest.length)
    else c :: eraseSubFuel a rest n cs

/-- Python `s.replace(sub, '')`: erase every occurrence of `sub`
(left to right, non-overlapping); the empty pattern leaves `s` unchanged. -/
def pyEraseAll (s sub : String) : String :=
  match sub.data with
  | [] => s
  | a :: rest => ⟨eraseSubFuel a rest s.data.length s.data⟩

/-- Python `s.replace(',', '.')`: a single-character substitution is a
character-wise map. -/
def replaceCommas (s : String) : String :=
  ⟨s.data.map (fun c => if c = ',' then '.' else c)⟩

/-- Python `l[i]` with an out-of-range default. -/
def listGetD : List String → Nat → String
  | [], _ => ""
  | x :: _, 0 => x
  | _ :: xs, n + 1 => listGetD xs n

/-- Python `l[i] = v`. -/
def listSet : List String → Nat → String → List String
  | [], _, _ => []
  | _ :: xs, 0, v => v :: xs
  | x :: xs, n + 1, v => x :: listSet xs n v

/--
The external collaborators consumed by `speech.py`, as contracts: the
static tables of `avwx.static` (digit/symbol words, full-token fraction
exceptions, spoken unit names), the core utilities of `avwx.core`
(`is_unknown`, `unpack_fraction`) and the `avwx.translate` renderers.
None of their implementations lives in `speech.py`; theorems quantify
over every possible environment.
-/
structure Env where
  fractions : String → Option String
  number_repl : Char → Option String
  spoken_units : String → Option String
  is_unknown : String → Bool
  unpack_fraction : String → String
  translate_wind : String → String → String → List String → String → Bool → String
  translate_visibility : String → String → String
  translate_wxcode : String → String
  translate_clouds : List String → String → String

/-- `numbers(num)`: full-token fraction lookup first, otherwise spell
character by character, skipping characters absent from the table, and
join the words with single spaces. -/
def numbers (env : Env) (num : String) : String :=
  match env.fractions num with
  | some p => p
  | none => joinSep " " (num.data.filterMap env.number_repl)

/-- `remove_leading_zeros(num)`: strips zeros while handling `-`, `M` and
empty strings. -/
def remove_leading_zeros (num : String) : String :=
  if num = "" then num
  else
    let ret :=
      if pyStartsWith num "M" then "M" ++ lstripZeros (strDrop num 1)
      else if pyStartsWith num "-" then "-" ++ lstripZeros (strDrop num 1)
      else lstripZeros num
    if ret = "" ∨ ret = "M" ∨ ret = "-" then "0" else ret

/-- The Python loop `for i, val in enumerate(wvar): wvar[i] = numbers(val)`:
index `i` advances one step per unit of fuel, each step reads the current
cell and overwrites it. -/
def enumLoop (f : String → String) : Nat → Nat → List String → List String
  | _, 0, acc => acc
  | i, fuel + 1, acc => enumLoop f (i + 1) fuel (listSet acc i (f (listGetD acc i)))

/-- The in-place rewrite of the variable-wind-direction list performed by
`wind`, started at index 0 with one unit of fuel per element. -/
def windLoop (f : String → String) (l : List String) : List String :=
  enumLoop f 0 l.length l

/-- Result of `wind`: the returned string together with the final contents
of the caller's variable-direction list (rewritten in place by the loop). -/
structure WindResult where
  result : String
  wvar : List String
deriving DecidableEq, Repr

/-- `wind(wdir, wspd, wgst, wvar, unit)`. -/
def wind (env : Env) (wdir wspd wgst : String) (wvar : List String) (unit : String) : WindResult :=
  let unit2 := (env.spoken_units unit).getD unit
  let wdir2 := if wdir = "000" ∨ wdir = "VRB" then wdir else numbers env wdir
  let wvar2 := windLoop (numbers env) wvar
  let val := env.translate_wind wdir2 (remove_leading_zeros wspd)
    (remove_leading_zeros wgst) wvar2 unit2 false
  { result := "Winds " ++ (if val = "" then "unknown" else val), wvar := wvar2 }

/-- `temperature(header, temp, unit)`. -/
def temperature (env : Env) (header temp unit : String) : String :=
  if env.is_unknown temp then header ++ " unknown"
  else
    let unit2 := (env.spoken_units unit).getD unit
    let temp2 := numbers env (remove_leading_zeros temp)
    let use_s := if temp2 = "one" ∨ temp2 = "minus one" then "" else "s"
    joinSep " " [header, temp2, "degree" ++ use_s, unit2]

/-- The dispatch core of `visibility`: returns the spoken phrase together
with the unit tag in force after the branch (the `else` branch rebinds
`"m"` to `"km"` before cleaning the translated phrase). -/
def visCore (env : Env) (vis unit : String) : String × String :=
  if pyStartsWith vis "M" then
    ("less than " ++ numbers env (remove_leading_zeros (strDrop vis 1)), unit)
  else if pyStartsWith vis "P" then
    ("greater than " ++ numbers env (remove_leading_zeros (strDrop vis 1)), unit)
  else if vis.data.contains '/' then
    let u := env.unpack_fraction vis
    (joinSep " and " ((splitOnSpace u).map (fun n => numbers env (remove_leading_zeros n))), unit)
  else
    let t := env.translate_visibility vis unit
    let unit2 := if unit = "m" then "km" else unit
    let t2 := pyStrip (pyEraseAll (strToLower (cutAtParen t)) unit2)
    (numbers env (remove_leading_zeros t2), unit2)

/-- The pluralization exception of `visibility`: literal substring checks
`'one half' in vis and ' and ' not in vis` or `'of a' in vis`. -/
def pluralException (phrase : String) : Bool :=
  (isSubstr "one half" phrase && !(isSubstr " and " phrase)) || isSubstr "of a" phrase

/-- The unit-suffix step of `visibility`: spoken unit name pluralized
unless the exception holds, else the raw unit tag with no space. -/
def visSuffix (env : Env) (phrase unit : String) : String :=
  match env.spoken_units unit with
  | some u => " " ++ u ++ (if pluralException phrase then "" else "s")
  | none => unit

/-- `visibility(vis, unit)`. -/
def visibility (env : Env) (vis unit : String) : String :=
  if env.is_unknown vis then "Visibility unknown"
  else
    let p := visCore env vis unit
    "Visibility " ++ p.1 ++ visSuffix env p.1 p.2

/-- `altimeter(alt, unit)`. -/
def altimeter (env : Env) (alt unit : String) : String :=
  "Altimeter " ++
    (if env.is_unknown alt then "unknown"
     else if unit = "inHg" then numbers env (strTake alt 2) ++ " point " ++ numbers env (strDrop alt 2)
     else if unit = "hPa" then numbers env alt
     else "")

/-- `other(wxcodes)`: translate each code; a phrase starting with
`"Vicinity"` is run through `lstrip('Vicinity ')` (a character-set strip)
and suffixed with `" in the Vicinity"`. -/
def other (env : Env) (wxcodes : List String) : String :=
  joinSep ". " (wxcodes.map (fun code =>
    let t := env.translate_wxcode code
    if pyStartsWith t "Vicinity" then
      pyLstrip t "Vicinity ".data ++ " in the Vicinity"
    else t))

/-- `MetarData`: the decoded observation. Absent string fields are the
empty string (Python falsiness); cloud layers are opaque descriptors. -/
structure MetarData where
  wind_direction : String
  wind_speed : String
  wind_gust : String
  wind_variable_direction : List String
  visibility : String
  temperature : String
  dewpoint : String
  altimeter : String
  other : List String
  clouds : List String
deriving DecidableEq, Repr

/-- `Units`: one unit tag per measurable quantity. -/
structure Units where
  wind_speed : String
  visibility : String
  temperature : String
  altitude : String
  altimeter : String
deriving DecidableEq, Repr

/--
Modelled from the spec: a sample instantiation of the external
collaborator contracts of §6 (static tables, core utilities, translation
renderers), used below to evaluate the formatters at concrete inputs.
The digit/symbol table spells digits and signs, the fraction-exception
table maps simple fraction tokens to their spoken phrases, the spoken
unit table resolves a few tags, the unknown sentinel is a fixed token,
and the translators return simple deterministic phrases.
-/
def envX : Env where
  fractions := fun s =>
    if s = "1/2" then some "one half"
    else if s = "1/4" then some "one quarter of a mile"
    else if s = "3/4" then some "three quarters of a mile"
    else none
  number_repl := fun c =>
    if c = '0' then some "zero"
    else if c = '1' then some "one"
    else if c = '2' then some "two"
    else if c = '3' then some "three"
    else if c = '4' then some "four"
    else if c = '5' then some "five"
    else if c = '6' then some "six"
    else if c = '7' then some "seven"
    else if c = '8' then some "eight"
    else if c = '9' then some "nine"
    else if c = '-' then some "minus"
    else if c = 'M' then some "minus"
    else if c = '.' then some "point"
    else none
  spoken_units := fun u =>
    if u = "sm" then some "mile"
    else if u = "km" then some "kilometer"
    else if u = "C" then some "Celsius"
    else if u = "F" then some "Fahrenheit"
    else none
  is_unknown := fun s => s == "////"
  unpack_fraction := fun s => if s = "11/2" then "1 1/2" else s
  translate_wind := fun wdir wspd _ _ unit _ => wdir ++ " at " ++ wspd ++ " " ++ unit
  translate_visibility := fun vis _ => vis ++ "km (" ++ vis ++ "sm)"
  translate_wxcode := fun code => if code = "VCSH" then "Vicinity Showers" else code
  translate_clouds := fun _ _ => "Few clouds at one thousand"

/-- Modelled from the spec: the same collaborator sample, but with a
weather-code translation whose remainder after the word `"Vicinity"`
starts with characters drawn from the letters of `"Vicinity"`. -/
def envV : Env :=
  { envX with translate_wxcode := fun _ => "Vicinity city" }

/-- A concrete observation used to evaluate the orchestrator. -/
def wxX : MetarData where
  wind_direction := "090"
  wind_speed := "10"
  wind_gust := ""
  wind_variable_direction := []
  visibility := "10"
  temperature := "20"
  dewpoint := "15"
  altimeter := "2992"
  other := []
  clouds := []

/-- A concrete unit set used to evaluate the orchestrator. -/
def unitsX : Units where
  wind_speed := "kt"
  visibility := "m"
  temperature := "C"
  altitude := "ft"
  altimeter := "inHg"

/-- The guarded, ordered segment list built by `metar` (the deep copies
taken by the Python code are identities in this value semantics; the
copy exists there only to shield callers from `wind`'s list rewrite). -/
def metarSegs (env : Env) (wx : MetarData) (units : Units) : List String :=
  (if wx.wind_direction ≠ "" ∧ wx.wind_speed ≠ "" then
    [(wind env wx.wind_direction wx.wind_speed wx.wind_gust
        wx.wind_variable_direction units.wind_speed).result]
   else [])
  ++ (if wx.visibility ≠ "" then [visibility env wx.visibility units.visibility] else [])
  ++ (if wx.temperature ≠ "" then [temperature env "Temperature" wx.temperature units.temperature] else [])
  ++ (if wx.dewpoint ≠ "" then [temperature env "Dew point" wx.dewpoint units.temperature] else [])
  ++ (if wx.altimeter ≠ "" then [altimeter env wx.altimeter units.altimeter] else [])
  ++ (if wx.other ≠ [] then [other env wx.other] else [])
  ++ [pyEraseAll (env.translate_clouds wx.clouds units.altitude) " - Reported AGL"]

/-- `metar(wxdata, units)`: filter out empty segments, join with `". "`,
replace every comma with a period. -/
def metar (env : Env) (wx : MetarData) (units : Units) : String :=
  replaceCommas (joinSep ". " ((metarSegs env wx units).filter (fun l => l != "")))

/-! ### Helper lemmas -/

lemma strM_collapse (x : String) :
    ("M" ++ x = "" ∨ "M" ++ x = "M" ∨ "M" ++ x = "-") ↔ x = "" := by
  constructor
  · rintro (h | h | h) <;>
      · have h2 := congrArg String.data h
        simp [String.data_append] at h2
        all_goals exact String.ext h2
  · intro h; subst h; simp [String.append_empty]

lemma strDash_collapse (x : String) :
    ("-" ++ x = "" ∨ "-" ++ x = "M" ∨ "-" ++ x = "-") ↔ x = "" := by
  constructor
  · rintro (h | h | h) <;>
      · have h2 := congrArg String.data h
        simp [String.data_append] at h2
        all_goals exact String.ext h2
  · intro h; subst h; simp [String.append_empty]

lemma all_ne_comma_replaceCommas (s : String) :
    ((replaceCommas s).data.all (fun c => c != ',')) = true := by
  simp only [replaceCommas, List.all_map]
  apply List.all_eq_true.mpr
  intro c _
  by_cases h : c = ',' <;> simp [h]

lemma listGetD_append (pre : List String) (x : String) (xs : List String) :
    listGetD (pre ++ x :: xs) pre.length = x := by
  induction pre with
  | nil => rfl
  | cons p ps ih => simpa [listGetD] using ih

lemma listSet_append (pre : List String) (x v : String) (xs : List String) :
    listSet (pre ++ x :: xs) pre.length v = pre ++ v :: xs := by
  induction pre with
  | nil => rfl
  | cons p ps ih => simp [listSet, ih]

lemma enumLoop_append (f : String → String) (post : List String) :
    ∀ pre : List String,
      enumLoop f pre.length post.length (pre ++ post) = pre ++ post.map f := by
  induction post with
  | nil => intro pre; simp [enumLoop]
  | cons x xs ih =>
    intro pre
    show enumLoop f pre.length (xs.length + 1) (pre ++ x :: xs) = _
    rw [enumLoop, listGetD_append, listSet_append]
    have h2 := ih (pre ++ [f x])
    simpa [List.append_assoc] using h2

/-- The in-place loop of `wind` replaces every element by its image. -/
lemma windLoop_eq_map (f : String → String) (l : List String) :
    windLoop f l = l.map f := by
  simpa [windLoop] using enumLoop_append f l []

/-! ### Claim theorems -/

/-- C10: `remove_leading_zeros` preserves a leading `M` or `-` sign marker,
strips leading zeros from the remainder, collapses to `"0"` when stripping
leaves only the sign marker or nothing at all, leaves the empty token
unchanged, and satisfies the five quoted examples. -/
theorem remove_leading_zeros_spec :
    remove_leading_zeros "004" = "4" ∧
    remove_leading_zeros "M004" = "M4" ∧
    remove_leading_zeros "0" = "0" ∧
    remove_leading_zeros "" = "" ∧
    remove_leading_zeros "M0" = "0" ∧
    (∀ num : String, num ≠ "" → pyStartsWith num "M" = true →
      remove_leading_zeros num =
        if lstripZeros (strDrop num 1) = "" then "0"
        else "M" ++ lstripZeros (strDrop num 1)) ∧
    (∀ num : String, num ≠ "" → pyStartsWith num "M" = false →
      pyStartsWith num "-" = true →
      remove_leading_zeros num =
        if lstripZeros (strDrop num 1) = "" then "0"
        else "-" ++ lstripZeros (strDrop num 1)) ∧
    (∀ num : String, num ≠ "" → pyStartsWith num "M" = false →
      pyStartsWith num "-" = false →
      remove_leading_zeros num =
        if lstripZeros num = "" ∨ lstripZeros num = "M" ∨ lstripZeros num = "-" then "0"
        else lstripZeros num) ∧
    (∀ num : String, num ≠ "" → pyStartsWith num "M" = true →
      (∀ c ∈ (strDrop num 1).data, c = '0') → remove_leading_zeros num = "0") := by
  have hM : ∀ num : String, num ≠ "" → pyStartsWith num "M" = true →
      remove_leading_zeros num =
        if lstripZeros (strDrop num 1) = "" then "0"
        else "M" ++ lstripZeros (strDrop num 1) := by
    intro num hne hm
    simp only [remove_leading_zeros, if_neg hne, hm, if_true]
    by_cases hx : lstripZeros (strDrop num 1) = ""
    · simp [hx, String.append_empty]
    · rw [if_neg (fun h => hx ((strM_collapse _).mp h)), if_neg hx]
  have hD : ∀ num : String, num ≠ "" → pyStartsWith num "M" = false →
      pyStartsWith num "-" = true →
      remove_leading_zeros num =
        if lstripZeros (strDrop num 1) = "" then "0"
        else "-" ++ lstripZeros (strDrop num 1) := by
    intro num hne hm hd
    simp only [remove_leading_zeros, if_neg hne, hm, hd, if_true, Bool.false_eq_true,
      if_false]
    by_cases hx : lstripZeros (strDrop num 1) = ""
    · simp [hx, String.append_empty]
    · rw [if_neg (fun h => hx ((strDash_collapse _).mp h)), if_neg hx]
  refine ⟨by decide, by decide, by decide, by decide, by decide, hM, hD, ?_, ?_⟩
  · intro num hne hm hd
    simp only [remove_leading_zeros, if_neg hne, hm, hd, Bool.false_eq_true, if_false]
  · intro num hne hm hall
    have hx : lstripZeros (strDrop num 1) = "" := by
      have : (strDrop num 1).data.dropWhile (fun c => c = '0') = [] := by
        apply List.dropWhile_eq_nil_iff.mpr
        intro c hc
        simp [hall c hc]
      simp [lstripZeros, this]
    rw [hM num hne hm, if_pos hx]

/-- C10 witness: the sign-preservation, dash and collapse clauses applied at
concrete inputs. -/
theorem remove_leading_zeros_spec_witness :
    (("M004" : String) ≠ "" ∧ pyStartsWith "M004" "M" = true ∧
      remove_leading_zeros "M004" =
        if lstripZeros (strDrop "M004" 1) = "" then "0"
        else "M" ++ lstripZeros (strDrop "M004" 1)) ∧
    (("-07" : String) ≠ "" ∧ pyStartsWith "-07" "M" = false ∧
      pyStartsWith "-07" "-" = true ∧
      remove_leading_zeros "-07" =
        if lstripZeros (strDrop "-07" 1) = "" then "0"
        else "-" ++ lstripZeros (strDrop "-07" 1)) ∧
    (remove_leading_zeros "050" =
      if lstripZeros "050" = "" ∨ lstripZeros "050" = "M" ∨ lstripZeros "050" = "-" then "0"
      else lstripZeros "050") ∧
    (remove_leading_zeros "00" =
      if lstripZeros "00" = "" ∨ lstripZeros "00" = "M" ∨ lstripZeros "00" = "-" then "0"
      else lstripZeros "00") ∧
    ((∀ c ∈ (strDrop "M00" 1).data, c = '0') ∧ remove_leading_zeros "M00" = "0") := by
  have h := remove_leading_zeros_spec
  refine ⟨⟨by decide, by decide, h.2.2.2.2.2.1 "M004" (by decide) (by decide)⟩,
    ⟨by decide, by decide, by decide,
      h.2.2.2.2.2.2.1 "-07" (by decide) (by decide) (by decide)⟩,
    h.2.2.2.2.2.2.2.1 "050" (by decide) (by decide) (by decide),
    h.2.2.2.2.2.2.2.1 "00" (by decide) (by decide) (by decide),
    ⟨by decide, h.2.2.2.2.2.2.2.2 "M00" (by decide) (by decide) (by decide)⟩⟩

/-- C9: `numbers` is total by construction; a full-token fraction hit is
returned verbatim, otherwise the token is spelled character by character
with unknown characters skipped and the words joined by single spaces, and
a token with no spellable characters (the empty token included) yields the
empty string. -/
theorem numbers_spec (env : Env) (num : String) :
    (∀ p, env.fractions num = some p → numbers env num = p) ∧
    (env.fractions num = none →
      numbers env num = joinSep " " (num.data.filterMap env.number_repl)) ∧
    (env.fractions num = none → (∀ c ∈ num.data, env.number_repl c = none) →
      numbers env num = "") ∧
    (env.fractions "" = none → numbers env "" = "") := by
  refine ⟨?_, ?_, ?_, ?_⟩
  · intro p hp; simp [numbers, hp]
  · intro hn; simp [numbers, hn]
  · intro hn hall
    have hnil : num.data.filterMap env.number_repl = [] :=
      List.filterMap_eq_nil_iff.mpr hall
    simp [numbers, hn, hnil, joinSep]
  · intro hn; simp [numbers, hn, joinSep]

/-- C9 witness: a fraction hit returned verbatim and an unspellable token
mapped to the empty string, at concrete inputs. -/
theorem numbers_spec_witness :
    (envX.fractions "1/2" = some "one half" ∧ numbers envX "1/2" = "one half") ∧
    (envX.fractions "xy" = none ∧ (∀ c ∈ "xy".data, envX.number_repl c = none) ∧
      numbers envX "xy" = "") :=
  ⟨⟨rfl, (numbers_spec envX "1/2").1 "one half" rfl⟩,
    ⟨rfl, by decide, (numbers_spec envX "xy").2.2.1 rfl (by decide)⟩⟩

/-- C3: the orchestrator's output never contains a comma, for every
observation, unit set and collaborator behaviour: the final
`replace(',', '.')` eliminates every comma from the joined segments. -/
theorem metar_never_contains_comma (env : Env) (wx : MetarData) (units : Units) :
    ((metar env wx units).data.all (fun c => c != ',')) = true := by
  rw [metar]
  exact all_ne_comma_replaceCommas _

/-- C2 counterexample: after `wind` returns, the caller's
variable-direction list does not hold the elements it held before the
call — the codes have been overwritten by their spelled forms. -/
theorem wind_mutates_caller_list :
    (wind envX "090" "10" "" ["100"] "kt").wvar = ["one zero zero"] ∧
    (wind envX "090" "10" "" ["100"] "kt").wvar ≠ ["100"] := by
  constructor
  · rfl
  · intro h
    have : (["one zero zero"] : List String) = ["100"] := by
      rw [← h]; rfl
    simp at this

/-- C2 (amended): `wind` rewrites the variable-direction list in place —
after the call it holds exactly the spelled form of each original
element; callers are protected only because `metar` hands the formatter a
deep copy. -/
theorem wind_rewrites_wvar (env : Env) (wdir wspd wgst : String)
    (wvar : List String) (unit : String) :
    (wind env wdir wspd wgst wvar unit).wvar = wvar.map (numbers env) := by
  simp [wind, windLoop_eq_map]

/-- C8: `altimeter` dispatch — unknown sentinel, positional split for
`inHg`, whole-string spelling for `hPa`, bare prefix for any other unit. -/
theorem altimeter_spec (env : Env) (alt unit : String) :
    (env.is_unknown alt = true → altimeter env alt unit = "Altimeter unknown") ∧
    (env.is_unknown alt = false → unit = "inHg" →
      altimeter env alt unit =
        "Altimeter " ++ (numbers env (strTake alt 2) ++ " point " ++ numbers env (strDrop alt 2))) ∧
    (env.is_unknown alt = false → unit = "hPa" →
      altimeter env alt unit = "Altimeter " ++ numbers env alt) ∧
    (env.is_unknown alt = false → unit ≠ "inHg" → unit ≠ "hPa" →
      altimeter env alt unit = "Altimeter ") := by
  refine ⟨?_, ?_, ?_, ?_⟩
  · intro h; simp [altimeter, h]
  · intro h hu; subst hu; simp [altimeter, h]
  · intro h hu; subst hu; simp [altimeter, h]
  · intro h h1 h2; simp [altimeter, h, h1, h2, String.append_empty]

/-- C8 witness: the sentinel and the `inHg` positional split at concrete
inputs; `altimeter("2992", "inHg")` spells `"29"`, `" point "`, `"92"`. -/
theorem altimeter_spec_witness :
    (envX.is_unknown "////" = true ∧ altimeter envX "////" "inHg" = "Altimeter unknown") ∧
    (envX.is_unknown "2992" = false ∧
      altimeter envX "2992" "inHg" =
        "Altimeter " ++ (numbers envX (strTake "2992" 2) ++ " point " ++ numbers envX (strDrop "2992" 2))) :=
  ⟨⟨rfl, (altimeter_spec envX "////" "inHg").1 rfl⟩,
    ⟨rfl, (altimeter_spec envX "2992" "inHg").2.1 rfl rfl⟩⟩

/-- C1: code bug — the code strips the translated phrase with
`lstrip('Vicinity ')`, a character-set strip, so a phrase whose remainder
is drawn from the letters of `"Vicinity"` is destroyed instead of being
preserved intact: `"Vicinity city"` becomes `" in the Vicinity"` rather
than `"city in the Vicinity"`. -/
theorem other_vicinity_lstrip_bug :
    envV.translate_wxcode "VCX" = "Vicinity city" ∧
    pyStartsWith (envV.translate_wxcode "VCX") "Vicinity" = true ∧
    other envV ["VCX"] = " in the Vicinity" ∧
    (" in the Vicinity" : String) ≠ "city in the Vicinity" ∧
    other envX ["VCSH"] = "Showers in the Vicinity" :=
  ⟨rfl, rfl, rfl, by decide, rfl⟩

/-! ### Branch lemmas for `visibility` -/

lemma visibility_of_not_unknown (env : Env) (vis unit : String)
    (h : env.is_unknown vis = false) :
    visibility env vis unit =
      "Visibility " ++ (visCore env vis unit).1 ++
        visSuffix env (visCore env vis unit).1 (visCore env vis unit).2 := by
  simp [visibility, h]

lemma visCore_M (env : Env) (vis unit : String) (h : pyStartsWith vis "M" = true) :
    visCore env vis unit =
      ("less than " ++ numbers env (remove_leading_zeros (strDrop vis 1)), unit) := by
  simp [visCore, h]

lemma visCore_P (env : Env) (vis unit : String) (h1 : pyStartsWith vis "M" = false)
    (h2 : pyStartsWith vis "P" = true) :
    visCore env vis unit =
      ("greater than " ++ numbers env (remove_leading_zeros (strDrop vis 1)), unit) := by
  simp [visCore, h1, h2]

lemma visCore_frac (env : Env) (vis unit : String) (h1 : pyStartsWith vis "M" = false)
    (h2 : pyStartsWith vis "P" = false) (h3 : vis.data.contains '/' = true) :
    visCore env vis unit =
      (joinSep " and "
        ((splitOnSpace (env.unpack_fraction vis)).map
          (fun n => numbers env (remove_leading_zeros n))), unit) := by
  have h3' : '/' ∈ vis.data := by simpa using h3
  simp [visCore, h1, h2, h3']

lemma visCore_else (env : Env) (vis unit : String) (h1 : pyStartsWith vis "M" = false)
    (h2 : pyStartsWith vis "P" = false) (h3 : vis.data.contains '/' = false) :
    visCore env vis unit =
      (numbers env (remove_leading_zeros (pyStrip (pyEraseAll
          (strToLower (cutAtParen (env.translate_visibility vis unit)))
          (if unit = "m" then "km" else unit)))),
        if unit = "m" then "km" else unit) := by
  have h3' : '/' ∉ vis.data := by simpa using h3
  simp [visCore, h1, h2, h3']

/-- C5: `visibility` dispatches in fixed priority order — unknown sentinel,
leading `M` ("less than"), leading `P` ("greater than"), fraction — and in
particular the `M` rule outranks the `/` rule, so `visibility("M1/4", "m")`
begins with `"Visibility less than "`. -/
theorem visibility_dispatch (env : Env) (vis unit : String) :
    (env.is_unknown vis = true → visibility env vis unit = "Visibility unknown") ∧
    (env.is_unknown vis = false → pyStartsWith vis "M" = true →
      visibility env vis unit =
        "Visibility less than " ++
          (numbers env (remove_leading_zeros (strDrop vis 1)) ++
            visSuffix env
              ("less than " ++ numbers env (remove_leading_zeros (strDrop vis 1))) unit)) ∧
    (env.is_unknown vis = false → pyStartsWith vis "M" = false →
      pyStartsWith vis "P" = true →
      visibility env vis unit =
        "Visibility greater than " ++
          (numbers env (remove_leading_zeros (strDrop vis 1)) ++
            visSuffix env
              ("greater than " ++ numbers env (remove_leading_zeros (strDrop vis 1))) unit)) ∧
    (env.is_unknown vis = false → pyStartsWith vis "M" = false →
      pyStartsWith vis "P" = false → vis.data.contains '/' = true →
      visibility env vis unit =
        "Visibility " ++
          (joinSep " and "
            ((splitOnSpace (env.unpack_fraction vis)).map
              (fun n => numbers env (remove_leading_zeros n))) ++
            visSuffix env
              (joinSep " and "
                ((splitOnSpace (env.unpack_fraction vis)).map
                  (fun n => numbers env (remove_leading_zeros n)))) unit)) ∧
    (env.is_unknown "M1/4" = false →
      ∃ r, visibility env "M1/4" "m" = "Visibility less than " ++ r) := by
  have hMgen : ∀ v u : String, env.is_unknown v = false → pyStartsWith v "M" = true →
      visibility env v u =
        "Visibility less than " ++
          (numbers env (remove_leading_zeros (strDrop v 1)) ++
            visSuffix env
              ("less than " ++ numbers env (remove_leading_zeros (strDrop v 1))) u) := by
    intro v u h1 h2
    rw [visibility_of_not_unknown env v u h1, visCore_M env v u h2]
    rfl
  refine ⟨fun h => by simp [visibility, h], hMgen vis unit, ?_, ?_, ?_⟩
  · intro h1 h2 h3
    rw [visibility_of_not_unknown env vis unit h1, visCore_P env vis unit h2 h3]
    rfl
  · intro h1 h2 h3 h4
    rw [visibility_of_not_unknown env vis unit h1, visCore_frac env vis unit h2 h3 h4]
    rfl
  · intro h
    exact ⟨_, hMgen "M1/4" "m" h (by decide)⟩

/-- C5 witness: the sentinel and the `M`-outranks-`/` clauses at concrete
inputs. -/
theorem visibility_dispatch_witness :
    (envX.is_unknown "////" = true ∧ visibility envX "////" "sm" = "Visibility unknown") ∧
    (envX.is_unknown "M1/4" = false ∧
      ∃ r, visibility envX "M1/4" "m" = "Visibility less than " ++ r) :=
  ⟨⟨rfl, (visibility_dispatch envX "////" "sm").1 rfl⟩,
    ⟨rfl, (visibility_dispatch envX "M1/4" "m").2.2.2.2 rfl⟩⟩

/-- C6: in the fallback branch of `visibility` with unit tag `"m"`, the
unit is rebound to `"km"` before the unit text is removed from the
translated phrase and before the unit-suffix step, so the appended spoken
unit name is that of kilometers; the `M`/`P`/fraction branches keep the
original unit for the suffix. -/
theorem visibility_meters_rebound_to_km (env : Env) (vis : String)
    (h1 : env.is_unknown vis = false) (h2 : pyStartsWith vis "M" = false)
    (h3 : pyStartsWith vis "P" = false) (h4 : vis.data.contains '/' = false) :
    (visCore env vis "m").2 = "km" ∧
    visibility env vis "m" =
      "Visibility " ++
        numbers env (remove_leading_zeros (pyStrip (pyEraseAll
          (strToLower (cutAtParen (env.translate_visibility vis "m"))) "km"))) ++
        visSuffix env
          (numbers env (remove_leading_zeros (pyStrip (pyEraseAll
            (strToLower (cutAtParen (env.translate_visibility vis "m"))) "km")))) "km" ∧
    (∀ v u : String, pyStartsWith v "M" = true → (visCore env v u).2 = u) ∧
    (∀ v u : String, pyStartsWith v "M" = false → pyStartsWith v "P" = true →
      (visCore env v u).2 = u) ∧
    (∀ v u : String, pyStartsWith v "M" = false → pyStartsWith v "P" = false →
      v.data.contains '/' = true → (visCore env v u).2 = u) := by
  refine ⟨?_, ?_, ?_, ?_, ?_⟩
  · rw [visCore_else env vis "m" h2 h3 h4]
    rfl
  · rw [visibility_of_not_unknown env vis "m" h1, visCore_else env vis "m" h2 h3 h4]
    rfl
  · intro v u h; rw [visCore_M env v u h]
  · intro v u ha hb; rw [visCore_P env v u ha hb]
  · intro v u ha hb hc; rw [visCore_frac env v u ha hb hc]

/-- C6 witness: a plain metric visibility code, showing the suffix drawn
from the spoken name of `"km"`. -/
theorem visibility_meters_rebound_to_km_witness :
    (envX.is_unknown "10" = false ∧ pyStartsWith "10" "M" = false ∧
      pyStartsWith "10" "P" = false ∧ ("10" : String).data.contains '/' = false) ∧
    (visCore envX "10" "m").2 = "km" ∧
    visibility envX "10" "m" =
      "Visibility " ++
        numbers envX (remove_leading_zeros (pyStrip (pyEraseAll
          (strToLower (cutAtParen (envX.translate_visibility "10" "m"))) "km"))) ++
        visSuffix envX
          (numbers envX (remove_leading_zeros (pyStrip (pyEraseAll
            (strToLower (cutAtParen (envX.translate_visibility "10" "m"))) "km")))) "km" := by
  have h := visibility_meters_rebound_to_km envX "10" rfl (by decide) (by decide) (by decide)
  exact ⟨⟨rfl, by decide, by decide, by decide⟩, h.1, h.2.1⟩

/-- C4 counterexample: with the value `"M1/2"` and unit `"sm"` the spelled
phrase is `"less than one half"` — not exactly `"one half"`, without
`"of a"` — yet the code appends the singular `"mile"`: the exception is a
substring check, not an exact-match check, so the claim's predicted
plural `"miles"` does not appear. -/
theorem visibility_plural_exact_match_cex :
    visibility envX "M1/2" "sm" = "Visibility less than one half mile" ∧
    visibility envX "M1/2" "sm" ≠ "Visibility less than one half miles" ∧
    envX.is_unknown "M1/2" = false ∧
    envX.spoken_units "sm" = some "mile" ∧
    (visCore envX "M1/2" "sm").1 = "less than one half" ∧
    ("less than one half" : String) ≠ "one half" ∧
    isSubstr "of a" "less than one half" = false ∧
    isSubstr " and " "less than one half" = false :=
  ⟨rfl, by decide, rfl, rfl, rfl, by decide, by decide, by decide⟩

/-- C4 (amended): whenever the unit tag in force after dispatch has a
spoken form (and the value is not the unknown sentinel), the spoken unit
name is appended with a trailing `"s"` UNLESS the spelled phrase CONTAINS
the substring `"one half"` with no `" and "` present, or contains the
substring `"of a"`; with no spoken form the raw unit tag is appended with
no pluralization. -/
theorem visibility_plural_rule (env : Env) (vis unit : String)
    (h : env.is_unknown vis = false) :
    (∀ w, env.spoken_units (visCore env vis unit).2 = some w →
      visibility env vis unit =
        "Visibility " ++ (visCore env vis unit).1 ++ " " ++ w ++
          (if pluralException (visCore env vis unit).1 then "" else "s")) ∧
    (env.spoken_units (visCore env vis unit).2 = none →
      visibility env vis unit =
        "Visibility " ++ (visCore env vis unit).1 ++ (visCore env vis unit).2) ∧
    (∀ p : String, pluralException p =
      ((isSubstr "one half" p && !(isSubstr " and " p)) || isSubstr "of a" p)) := by
  refine ⟨?_, ?_, fun p => rfl⟩
  · intro w hw
    rw [visibility_of_not_unknown env vis unit h]
    simp [visSuffix, hw, String.append_assoc]
  · intro hw
    rw [visibility_of_not_unknown env vis unit h]
    simp [visSuffix, hw]

/-- C4 witness: the amended substring rule applied at the concrete
counterexample input. -/
theorem visibility_plural_rule_witness :
    (envX.is_unknown "M1/2" = false ∧
      envX.spoken_units (visCore envX "M1/2" "sm").2 = some "mile") ∧
    visibility envX "M1/2" "sm" =
      "Visibility " ++ (visCore envX "M1/2" "sm").1 ++ " " ++ "mile" ++
        (if pluralException (visCore envX "M1/2" "sm").1 then "" else "s") :=
  ⟨⟨rfl, rfl⟩, (visibility_plural_rule envX "M1/2" "sm" rfl).1 "mile" rfl⟩

/-- C7: `metar` builds the segments in the fixed order wind, visibility,
temperature, dew point, altimeter, weather phenomena, clouds, each behind
its guard (clouds always attempted), filters out empty segments and joins
with `". "`; omitting the altimeter field removes exactly that segment,
and no empty segment ever reaches the join. -/
theorem metar_structure (env : Env) (wx : MetarData) (units : Units) :
    metar env wx units = replaceCommas (joinSep ". " ((
      (if wx.wind_direction ≠ "" ∧ wx.wind_speed ≠ "" then
        [(wind env wx.wind_direction wx.wind_speed wx.wind_gust
            wx.wind_variable_direction units.wind_speed).result]
       else [])
      ++ (if wx.visibility ≠ "" then [visibility env wx.visibility units.visibility] else [])
      ++ (if wx.temperature ≠ "" then
            [temperature env "Temperature" wx.temperature units.temperature] else [])
      ++ (if wx.dewpoint ≠ "" then
            [temperature env "Dew point" wx.dewpoint units.temperature] else [])
      ++ (if wx.altimeter ≠ "" then [altimeter env wx.altimeter units.altimeter] else [])
      ++ (if wx.other ≠ [] then [other env wx.other] else [])
      ++ [pyEraseAll (env.translate_clouds wx.clouds units.altitude) " - Reported AGL"]).filter
        (fun l => l != ""))) ∧
    (∃ A B, metarSegs env wx units =
        A ++ ((if wx.altimeter ≠ "" then [altimeter env wx.altimeter units.altimeter] else []) ++ B) ∧
      metarSegs env { wx with altimeter := "" } units = A ++ B) ∧
    (∀ s ∈ (metarSegs env wx units).filter (fun l => l != ""), s ≠ "") := by
  refine ⟨rfl, ?_, ?_⟩
  · refine ⟨(if wx.wind_direction ≠ "" ∧ wx.wind_speed ≠ "" then
        [(wind env wx.wind_direction wx.wind_speed wx.wind_gust
            wx.wind_variable_direction units.wind_speed).result]
       else [])
      ++ ((if wx.visibility ≠ "" then [visibility env wx.visibility units.visibility] else [])
      ++ ((if wx.temperature ≠ "" then
            [temperature env "Temperature" wx.temperature units.temperature] else [])
      ++ (if wx.dewpoint ≠ "" then
            [temperature env "Dew point" wx.dewpoint units.temperature] else []))),
      (if wx.other ≠ [] then [other env wx.other] else [])
      ++ [pyEraseAll (env.translate_clouds wx.clouds units.altitude) " - Reported AGL"],
      ?_, ?_⟩
    · simp [metarSegs, List.append_assoc]
    · simp [metarSegs, List.append_assoc]
  · intro s hs he
    subst he
    simpa using List.of_mem_filter hs

/-- C7 witness: on a concrete observation, the altimeter segment is among
the joined non-empty segments and is non-empty. -/
theorem metar_structure_witness :
    ("Altimeter two nine point nine two" ∈
      (metarSegs envX wxX unitsX).filter (fun l => l != "")) ∧
    ("Altimeter two nine point nine two" : String) ≠ "" :=
  ⟨by decide, (metar_structure envX wxX unitsX).2.2 _ (by decide)⟩

end Speech
